import Mathlib

/-!
Shallow embedding of `src/my_it_store/app.py` (a Flask inventory /
point-of-sale tool).  The three SQLAlchemy models become Lean structures,
the database becomes a `Store` of three lists, and every request handler
becomes a pure function from the old store (plus the request's form data,
the session, and the clock) to the new store and a visible outcome.

Conventions of the embedding:
* primary keys are `Nat`; autoincrement ids and `datetime.utcnow()` are
  passed in as explicit `newId` / `now` parameters;
* `float` prices become `Rat`, Python `int` form fields (`stock`,
  `quantity`) become `Int` (Python ints are unbounded and may be negative);
* `werkzeug.security.generate_password_hash` / `check_password_hash` are
  external, so they are abstracted as function parameters `genHash` and
  `checkHash`;
* `Model.query.filter_by(...).first()` is `List.find?`; mutating the one
  ORM object returned by a query is `updateFirst`; `db.session.delete` of
  that object is `List.eraseP` when no Sale row references the product,
  and an aborted commit (IntegrityError, store unchanged) when one does,
  matching SQLAlchemy's default cascade against the NOT NULL foreign key;
* flash messages are kept verbatim (they are part of the visible outcome).
-/

namespace MyItStore

structure Employee where
  id : Nat
  username : String
  password_hash : String
  fullname : String
  position : String
  email : String
  phone : String
  created_at : Nat
  last_login : Option Nat
deriving DecidableEq

structure Product where
  id : Nat
  name : String
  description : String
  price : Rat
  stock : Int
  category : String
  created_at : Nat
  updated_at : Nat
deriving DecidableEq

structure Sale where
  id : Nat
  product_id : Nat
  employee_id : Nat
  quantity : Int
  total_price : Rat
  sale_date : Nat
deriving DecidableEq

/-- The persistent database: the three tables of the app. -/
structure Store where
  employees : List Employee
  products : List Product
  sales : List Sale
deriving DecidableEq

/-- Modifies the first element satisfying `q` (the ORM mutates the single
row object returned by a primary-key / unique-column query). -/
def updateFirst (q : α → Bool) (f : α → α) : List α → List α
  | [] => []
  | x :: xs => if q x then f x :: xs else x :: updateFirst q f xs

/-- Embeds `Employee.query.filter_by(username=...).first()`. -/
def findEmployeeByUsername (st : Store) (username : String) : Option Employee :=
  st.employees.find? (fun e => e.username == username)

/-- Embeds `Employee.query.filter_by(email=...).first()`. -/
def findEmployeeByEmail (st : Store) (email : String) : Option Employee :=
  st.employees.find? (fun e => e.email == email)

/-- Embeds `Product.query.get(id)` (primary-key lookup). -/
def findProduct (st : Store) (id : Nat) : Option Product :=
  st.products.find? (fun p => p.id == id)

/-- Embeds `Product.query.all()`, the catalog listing. -/
def products_listing (st : Store) : List Product :=
  st.products

/-- Embeds the character class `[a-z]` of `re.search("[a-z]", password)`. -/
def hasLower (s : String) : Bool :=
  s.data.any (fun c => 'a' ≤ c && c ≤ 'z')

/-- Embeds `re.search("[A-Z]", password)`. -/
def hasUpper (s : String) : Bool :=
  s.data.any (fun c => 'A' ≤ c && c ≤ 'Z')

/-- Embeds `re.search("[0-9]", password)`. -/
def hasDigit (s : String) : Bool :=
  s.data.any (fun c => '0' ≤ c && c ≤ '9')

/-- Embeds `validate_password` (app.py lines 57-66): returns the validity
flag and the flash message, checking length, lowercase, uppercase, digit
in that order. -/
def validate_password (password : String) : Bool × String :=
  if password.length < 8 then
    (false, "รหัสผ่านต้องมีอย่างน้อย 8 ตัวอักษร")
  else if !hasLower password then
    (false, "รหัสผ่านต้องมีตัวพิมพ์เล็ก")
  else if !hasUpper password then
    (false, "รหัสผ่านต้องมีตัวพิมพ์ใหญ่")
  else if !hasDigit password then
    (false, "รหัสผ่านต้องมีตัวเลข")
  else
    (true, "รหัสผ่านปลอดภัย")

/-- Visible outcome of the register handler: a rejection redirects back to
the register form with the given flash message; success redirects to
login. -/
inductive RegisterResult
  | rejected (flash : String)
  | registered
deriving DecidableEq

/-- Embeds the POST branch of `register` (app.py lines 102-143).
`genHash` abstracts `generate_password_hash`; `now` is `datetime.utcnow()`
and `newId` the autoincrement id of the new row. -/
def register (st : Store)
    (username password confirm_password fullname position email phone : String)
    (genHash : String → String) (now newId : Nat) : Store × RegisterResult :=
  let vp := validate_password password
  if vp.fst = false then
    (st, .rejected vp.snd)
  else if password ≠ confirm_password then
    (st, .rejected "รหัสผ่านไม่ตรงกัน!")
  else if (findEmployeeByUsername st username).isSome then
    (st, .rejected "ชื่อผู้ใช้นี้มีคนใช้แล้ว!")
  else if (findEmployeeByEmail st email).isSome then
    (st, .rejected "อีเมลนี้มีคนใช้แล้ว!")
  else
    ({ st with employees := st.employees ++
        [{ id := newId, username := username, password_hash := genHash password,
           fullname := fullname, position := position, email := email,
           phone := phone, created_at := now, last_login := none }] },
     .registered)

/-- The page the login handler ends on: redirect to the dashboard on
success, re-render the login form on failure. -/
inductive LoginView
  | redirectHome
  | loginPage
deriving DecidableEq

/-- The full visible + persistent result of a login attempt. -/
structure LoginResult where
  store : Store
  sess : Option String
  flash : String
  view : LoginView
deriving DecidableEq

/-- Embeds the POST branch of `login` (app.py lines 85-100).  `checkHash`
abstracts `check_password_hash` applied to the stored hash and the
submitted password; `sess` is the incoming session (unchanged on
failure). -/
def login (st : Store) (checkHash : String → String → Bool)
    (sess : Option String) (username password : String) (now : Nat) : LoginResult :=
  match findEmployeeByUsername st username with
  | some employee =>
    if checkHash employee.password_hash password then
      let employees2 :=
        updateFirst (fun e => e.username == username)
          (fun e => { e with last_login := some now }) st.employees
      { store := { st with employees := employees2 },
        sess := some username,
        flash := "เข้าสู่ระบบสำเร็จ!",
        view := .redirectHome }
    else
      { store := st, sess := sess,
        flash := "ชื่อผู้ใช้หรือรหัสผ่านไม่ถูกต้อง!", view := .loginPage }
  | none =>
      { store := st, sess := sess,
        flash := "ชื่อผู้ใช้หรือรหัสผ่านไม่ถูกต้อง!", view := .loginPage }

/-- Embeds `logout` (app.py lines 228-232): pops the username from the
session, touches no table. -/
def logout (st : Store) (_sess : Option String) : Store × Option String × String :=
  (st, none, "ออกจากระบบสำเร็จ!")

/-- The form fields of `/product/add` and `/product/edit/<id>`. -/
structure ProductForm where
  name : String
  description : String
  price : Rat
  stock : Int
  category : String
deriving DecidableEq

/-- Embeds the POST branch of `add_product` (app.py lines 151-166). -/
def add_product (st : Store) (f : ProductForm) (now newId : Nat) : Store :=
  { st with products := st.products ++
      [{ id := newId, name := f.name, description := f.description,
         price := f.price, stock := f.stock, category := f.category,
         created_at := now, updated_at := now }] }

/-- Embeds the POST branch of `edit_product` (app.py lines 168-181):
`get_or_404` then field updates; `false` is the 404 outcome. -/
def edit_product (st : Store) (id : Nat) (f : ProductForm) (now : Nat) :
    Store × Bool :=
  match findProduct st id with
  | none => (st, false)
  | some _ =>
    let products2 :=
      updateFirst (fun p => p.id == id)
        (fun p => { p with name := f.name, description := f.description,
                           price := f.price, stock := f.stock,
                           category := f.category, updated_at := now })
        st.products
    ({ st with products := products2 }, true)

/-- Outcome of the delete handler: `notFound` is the 404 of `get_or_404`;
`integrityError` is the unhandled exception raised at commit when Sale
rows reference the product; `deleted` is the success path. -/
inductive DeleteOutcome
  | notFound
  | integrityError
  | deleted
deriving DecidableEq

/-- Embeds `delete_product` (app.py lines 183-190): `get_or_404` then
`db.session.delete(product)` and `commit()`.  `Sale.product` (app.py line
54) is a relationship with SQLAlchemy's default cascade, so deleting the
parent makes the flush null out the `product_id` of every referencing
Sale row; `Sale.product_id` is `nullable=False` (app.py line 49), so when
any Sale references the product the commit raises IntegrityError, the
transaction aborts and nothing is persisted.  Only a product no Sale row
references is actually erased. -/
def delete_product (st : Store) (id : Nat) : Store × DeleteOutcome :=
  match findProduct st id with
  | none => (st, .notFound)
  | some _ =>
    if st.sales.any (fun s => s.product_id == id) then
      (st, .integrityError)
    else
      ({ st with products := st.products.eraseP (fun p => p.id == id) },
       .deleted)

/-- Visible outcome of the add_sale POST handler. -/
inductive AddSaleResult
  | notFound
  | insufficientStock
  | employeeMissing
  | recorded
deriving DecidableEq

/-- Embeds the POST branch of `add_sale` (app.py lines 198-223):
`get_or_404` the product, look up the session's employee, check
`product.stock < quantity`, then insert the Sale row and decrement the
stock of that product row.  `employeeMissing` models the AttributeError
Python would raise at `employee.id` when the session username matches no
employee row (the lookup itself returns `None` before the stock check). -/
def add_sale (st : Store) (sessionUser : String) (product_id : Nat)
    (quantity : Int) (now saleId : Nat) : Store × AddSaleResult :=
  match findProduct st product_id with
  | none => (st, .notFound)
  | some product =>
    let employee? := findEmployeeByUsername st sessionUser
    if product.stock < quantity then
      (st, .insufficientStock)
    else
      match employee? with
      | none => (st, .employeeMissing)
      | some employee =>
        let total_price := product.price * (quantity : Rat)
        let products2 :=
          updateFirst (fun p => p.id == product_id)
            (fun p => { p with stock := p.stock - quantity }) st.products
        let new_sale : Sale :=
          { id := saleId, product_id := product_id,
            employee_id := employee.id, quantity := quantity,
            total_price := total_price, sale_date := now }
        ({ st with products := products2, sales := st.sales ++ [new_sale] },
         .recorded)

/-- What a request handler sends back to the browser. -/
inductive Response
  | redirectLogin (flash : String)
  | html (template : String)
  | redirect (target : String) (flash : String)
  | notFound
  | serverError
deriving DecidableEq

/-- The seven routes wrapped in `@login_required`; a `none` form is a GET
request, a `some` form a POST. -/
inductive ProtectedRoute
  | home
  | productsPage
  | productAdd (form : Option ProductForm)
  | productEdit (id : Nat) (form : Option ProductForm)
  | productDelete (id : Nat)
  | salesPage
  | saleAdd (form : Option (Nat × Int))
deriving DecidableEq

def isSaleAddRoute : ProtectedRoute → Bool
  | .saleAdd _ => true
  | _ => false

/-- The body of each protected handler, given the session's username. -/
def handlerFor (r : ProtectedRoute) (now freshId : Nat) (u : String)
    (st : Store) : Store × Response :=
  match r with
  | .home => (st, .html "dashboard")
  | .productsPage => (st, .html "products")
  | .productAdd none => (st, .html "add_product")
  | .productAdd (some f) =>
      (add_product st f now freshId, .redirect "products" "เพิ่มสินค้าสำเร็จ!")
  | .productEdit id none =>
      match findProduct st id with
      | none => (st, .notFound)
      | some _ => (st, .html "edit_product")
  | .productEdit id (some f) =>
      match edit_product st id f now with
      | (st2, true) => (st2, .redirect "products" "อัพเดทสินค้าสำเร็จ!")
      | (st2, false) => (st2, .notFound)
  | .productDelete id =>
      match delete_product st id with
      | (st2, DeleteOutcome.deleted) =>
          (st2, .redirect "products" "ลบสินค้าสำเร็จ!")
      | (st2, DeleteOutcome.notFound) => (st2, .notFound)
      | (st2, DeleteOutcome.integrityError) => (st2, .serverError)
  | .salesPage => (st, .html "sales")
  | .saleAdd none => (st, .html "add_sale")
  | .saleAdd (some f) =>
      match add_sale st u f.fst f.snd now freshId with
      | (st2, .notFound) => (st2, .notFound)
      | (st2, .insufficientStock) =>
          (st2, .redirect "add_sale" "สินค้าในสต็อกไม่เพียงพอ!")
      | (st2, .employeeMissing) => (st2, .serverError)
      | (st2, .recorded) => (st2, .redirect "sales" "บันทึกการขายสำเร็จ!")

/-- Embeds the `login_required` decorator (app.py lines 68-75): without a
`username` key in the session, flash a notice and redirect to login
without running the wrapped handler. -/
def login_required (f : String → Store → Store × Response)
    (sess : Option String) (st : Store) : Store × Response :=
  match sess with
  | none => (st, .redirectLogin "กรุณาเข้าสู่ระบบก่อน")
  | some u => f u st

/-- A request to any protected route: the decorator wrapped around the
handler body. -/
def handleProtected (r : ProtectedRoute) (sess : Option String) (st : Store)
    (now freshId : Nat) : Store × Response :=
  login_required (handlerFor r now freshId) sess st

/-! ### Helper lemmas about `updateFirst` and `eraseP` -/

theorem updateFirst_length (q : α → Bool) (f : α → α) (l : List α) :
    (updateFirst q f l).length = l.length := by
  induction l with
  | nil => rfl
  | cons a l ih => by_cases h : q a = true <;> simp [updateFirst, h, ih]

theorem find?_updateFirst (q : α → Bool) (f : α → α) (l : List α) (x : α)
    (hx : l.find? q = some x) (hfx : q (f x) = true) :
    (updateFirst q f l).find? q = some (f x) := by
  induction l with
  | nil => simp at hx
  | cons a l ih =>
    by_cases h : q a = true
    · rw [List.find?_cons_of_pos _ h] at hx
      cases hx
      simp only [updateFirst, if_pos h]
      exact List.find?_cons_of_pos _ hfx
    · rw [List.find?_cons_of_neg _ h] at hx
      simp only [updateFirst, if_neg h]
      rw [List.find?_cons_of_neg _ h]
      exact ih hx

theorem mem_updateFirst_of_neg (q : α → Bool) (f : α → α) (l : List α) (y : α)
    (hy : y ∈ l) (hq : q y = false) : y ∈ updateFirst q f l := by
  induction l with
  | nil => simp at hy
  | cons a l ih =>
    rcases List.mem_cons.mp hy with h1 | h1
    · subst h1
      simp only [updateFirst]
      rw [if_neg (by simp [hq])]
      exact List.mem_cons_self _ _
    · by_cases h : q a = true
      · simp only [updateFirst, if_pos h]
        exact List.mem_cons_of_mem _ h1
      · simp only [updateFirst, if_neg h]
        exact List.mem_cons_of_mem _ (ih h1)

theorem eraseP_no_match (l : List Product) (pid : Nat)
    (hnodup : (l.map Product.id).Nodup) :
    ∀ p2 ∈ l.eraseP (fun p => p.id == pid), p2.id ≠ pid := by
  induction l with
  | nil => simp [List.eraseP]
  | cons a l ih =>
    simp only [List.map_cons, List.nodup_cons] at hnodup
    by_cases h : a.id = pid
    · rw [List.eraseP_cons_of_pos (by simp [h])]
      intro p2 hp2 hpid
      apply hnodup.1
      have hmem : p2.id ∈ l.map Product.id := List.mem_map_of_mem _ hp2
      rw [hpid, ← h] at hmem
      exact hmem
    · rw [List.eraseP_cons_of_neg (by simp [h])]
      intro p2 hp2
      rcases List.mem_cons.mp hp2 with h1 | h1
      · subst h1; exact h
      · exact ih hnodup.2 p2 h1

/-! ### Sample data used by the concrete witnesses -/

def sampleEmployee : Employee :=
  { id := 1, username := "alice", password_hash := "Secret123",
    fullname := "Alice A", position := "clerk", email := "alice@example.com",
    phone := "0123456789", created_at := 0, last_login := none }

def sampleProduct : Product :=
  { id := 1, name := "mouse", description := "usb mouse", price := 5,
    stock := 10, category := "accessory", created_at := 0, updated_at := 0 }

def sampleStore : Store :=
  { employees := [sampleEmployee], products := [sampleProduct], sales := [] }

def sampleSale : Sale :=
  { id := 1, product_id := 1, employee_id := 1, quantity := 2,
    total_price := 10, sale_date := 0 }

def storeWithSale : Store :=
  { employees := [sampleEmployee], products := [sampleProduct],
    sales := [sampleSale] }

/-! ### The claims -/

/-- Claim C2: when the product exists and its stock is below the requested
quantity, add_sale reports the insufficient-stock error and performs no
mutation at all: the returned store is exactly the old store (no Sale row,
no stock change). -/
theorem add_sale_insufficient_stock (st : Store) (u : String) (pid : Nat)
    (q : Int) (now sid : Nat) (product : Product)
    (hp : findProduct st pid = some product)
    (hlt : product.stock < q) :
    add_sale st u pid q now sid = (st, AddSaleResult.insufficientStock) := by
  unfold add_sale
  rw [hp]
  simp [hlt]

theorem add_sale_insufficient_stock_witness :
    add_sale sampleStore "alice" 1 11 0 1 =
      (sampleStore, AddSaleResult.insufficientStock) :=
  add_sale_insufficient_stock sampleStore "alice" 1 11 0 1 sampleProduct rfl
    (by decide)

/-- Claim C3, counterexample: in a store whose single product (id 1) is
referenced by a Sale row, delete_product does not remove the product:
the commit raises IntegrityError, the store is returned unchanged and
the product still appears in the catalog listing — refuting the claim's
"including products that have Sale rows referencing them". -/
theorem delete_product_with_sales_counterexample :
    findProduct storeWithSale 1 = some sampleProduct ∧
    sampleSale ∈ storeWithSale.sales ∧
    sampleSale.product_id = 1 ∧
    (delete_product storeWithSale 1).snd = DeleteOutcome.integrityError ∧
    (delete_product storeWithSale 1).fst = storeWithSale ∧
    sampleProduct ∈ products_listing (delete_product storeWithSale 1).fst := by
  refine ⟨rfl, ?_, rfl, rfl, rfl, ?_⟩
  · exact List.mem_singleton.mpr rfl
  · exact List.mem_singleton.mpr rfl

/-- Claim C3 as amended: for every product present in the store (with the
database's primary-key uniqueness invariant on product ids),
delete_product removes that product's row — it no longer appears in the
catalog listing and its id can no longer be looked up, with the sales and
employees tables untouched — exactly when no Sale row references the
product; when some Sale row does reference it, the commit raises
IntegrityError and the whole store, catalog listing included, is
unchanged: the product is not removed. -/
theorem delete_product_removes_from_listing (st : Store) (pid : Nat)
    (product : Product)
    (hp : findProduct st pid = some product)
    (hnodup : (st.products.map Product.id).Nodup) :
    ((∀ s ∈ st.sales, s.product_id ≠ pid) →
      (delete_product st pid).snd = DeleteOutcome.deleted ∧
      (∀ p2 ∈ products_listing (delete_product st pid).fst, p2.id ≠ pid) ∧
      findProduct (delete_product st pid).fst pid = none ∧
      (delete_product st pid).fst.sales = st.sales ∧
      (delete_product st pid).fst.employees = st.employees) ∧
    ((∃ s ∈ st.sales, s.product_id = pid) →
      (delete_product st pid).snd = DeleteOutcome.integrityError ∧
      (delete_product st pid).fst = st) := by
  unfold delete_product
  rw [hp]
  constructor
  · intro hnone
    have hany : st.sales.any (fun s => s.product_id == pid) = false := by
      rw [← Bool.not_eq_true, List.any_eq_true]
      rintro ⟨s, hs, hsp⟩
      exact hnone s hs (by simpa using hsp)
    rw [if_neg (by simp [hany])]
    refine ⟨rfl, ?_, ?_, rfl, rfl⟩
    · exact fun p2 h2 => eraseP_no_match st.products pid hnodup p2 h2
    · apply List.find?_eq_none.mpr
      intro p2 h2
      simp [eraseP_no_match st.products pid hnodup p2 h2]
  · intro hsome
    have hany : st.sales.any (fun s => s.product_id == pid) = true := by
      rw [List.any_eq_true]
      rcases hsome with ⟨s, hs, hsp⟩
      exact ⟨s, hs, by simp [hsp]⟩
    rw [if_pos hany]
    exact ⟨rfl, rfl⟩

theorem delete_product_removes_from_listing_witness :
    (((∀ s ∈ sampleStore.sales, s.product_id ≠ 1) →
      (delete_product sampleStore 1).snd = DeleteOutcome.deleted ∧
      (∀ p2 ∈ products_listing (delete_product sampleStore 1).fst,
        p2.id ≠ 1) ∧
      findProduct (delete_product sampleStore 1).fst 1 = none ∧
      (delete_product sampleStore 1).fst.sales = sampleStore.sales ∧
      (delete_product sampleStore 1).fst.employees =
        sampleStore.employees) ∧
    ((∃ s ∈ sampleStore.sales, s.product_id = 1) →
      (delete_product sampleStore 1).snd = DeleteOutcome.integrityError ∧
      (delete_product sampleStore 1).fst = sampleStore)) :=
  delete_product_removes_from_listing sampleStore 1 sampleProduct rfl
    (by decide)

/-- Claim C8: every protected route, requested with a session that holds no
username, redirects to the login page with the notice flash and returns
the store unchanged (the wrapped handler body never runs, so nothing is
read or written). -/
theorem protected_route_without_session (r : ProtectedRoute) (st : Store)
    (now freshId : Nat) :
    handleProtected r none st now freshId =
      (st, Response.redirectLogin "กรุณาเข้าสู่ระบบก่อน") := rfl

/-- Shared shape lemma for the success path of add_sale: with the product
and the session's employee present and the stock check passing, the
handler returns exactly the old store with the matching product's stock
decremented and one Sale row appended. -/
theorem add_sale_success_eq (st : Store) (u : String) (pid : Nat) (q : Int)
    (now sid : Nat) (product : Product) (employee : Employee)
    (hp : findProduct st pid = some product)
    (he : findEmployeeByUsername st u = some employee)
    (hns : ¬ product.stock < q) :
    add_sale st u pid q now sid =
      ({ st with
          products := (updateFirst (fun p2 => p2.id == pid)
            (fun p2 => { p2 with stock := p2.stock - q }) st.products),
          sales := st.sales ++
            [{ id := sid, product_id := pid, employee_id := employee.id,
               quantity := q, total_price := product.price * (q : Rat),
               sale_date := now }] },
       AddSaleResult.recorded) := by
  unfold add_sale
  rw [hp]
  simp [he, hns]

/-- Claim C1: when the product exists, the logged-in employee exists and
the stock covers the requested quantity, add_sale appends exactly one
Sale row — with the requested quantity and total_price equal to the
product's price times the quantity — decrements exactly that product's
stock by the quantity, and leaves every other product, all pre-existing
sales and the employees table unchanged. -/
theorem add_sale_valid_quantity (st : Store) (u : String) (pid : Nat)
    (q : Int) (now sid : Nat) (product : Product) (employee : Employee)
    (hp : findProduct st pid = some product)
    (he : findEmployeeByUsername st u = some employee)
    (hq : q ≤ product.stock) :
    (add_sale st u pid q now sid).snd = AddSaleResult.recorded ∧
    (add_sale st u pid q now sid).fst.sales = st.sales ++
      [{ id := sid, product_id := pid, employee_id := employee.id,
         quantity := q, total_price := product.price * (q : Rat),
         sale_date := now }] ∧
    (add_sale st u pid q now sid).fst.employees = st.employees ∧
    findProduct (add_sale st u pid q now sid).fst pid =
      some { product with stock := product.stock - q } ∧
    (∀ p2 ∈ st.products, p2.id ≠ pid →
      p2 ∈ (add_sale st u pid q now sid).fst.products) ∧
    (add_sale st u pid q now sid).fst.products.length =
      st.products.length := by
  rw [add_sale_success_eq st u pid q now sid product employee hp he
    (not_lt.mpr hq)]
  refine ⟨rfl, rfl, rfl, ?_, ?_, ?_⟩
  · unfold findProduct at hp ⊢
    have hfx : (fun p2 => p2.id == pid)
        ({ product with stock := product.stock - q } : Product) = true :=
      @List.find?_some _ (fun p2 => p2.id == pid) product st.products hp
    exact find?_updateFirst (fun p2 => p2.id == pid)
      (fun p2 => { p2 with stock := p2.stock - q }) st.products product hp hfx
  · intro p2 h2 hne
    exact mem_updateFirst_of_neg _ _ st.products p2 h2 (by simp [hne])
  · exact updateFirst_length _ _ _

theorem add_sale_valid_quantity_witness :
    (add_sale sampleStore "alice" 1 3 7 99).snd = AddSaleResult.recorded ∧
    (add_sale sampleStore "alice" 1 3 7 99).fst.sales = sampleStore.sales ++
      [{ id := 99, product_id := 1, employee_id := sampleEmployee.id,
         quantity := 3, total_price := sampleProduct.price * ((3 : Int) : Rat),
         sale_date := 7 }] ∧
    (add_sale sampleStore "alice" 1 3 7 99).fst.employees =
      sampleStore.employees ∧
    findProduct (add_sale sampleStore "alice" 1 3 7 99).fst 1 =
      some { sampleProduct with stock := sampleProduct.stock - 3 } ∧
    (∀ p2 ∈ sampleStore.products, p2.id ≠ 1 →
      p2 ∈ (add_sale sampleStore "alice" 1 3 7 99).fst.products) ∧
    (add_sale sampleStore "alice" 1 3 7 99).fst.products.length =
      sampleStore.products.length :=
  add_sale_valid_quantity sampleStore "alice" 1 3 7 99 sampleProduct
    sampleEmployee rfl rfl (by decide)

/-- Claim C10: add_sale has no lower bound on the quantity: for a
non-positive quantity q with product.stock ≥ q the stock check passes,
a Sale row with that non-positive quantity and total_price = price * q is
committed, and the product's stock moves to stock - q, i.e. it grows by
|q| (is unchanged for q = 0) instead of being decremented. -/
theorem add_sale_nonpositive_quantity (st : Store) (u : String) (pid : Nat)
    (q : Int) (now sid : Nat) (product : Product) (employee : Employee)
    (hp : findProduct st pid = some product)
    (he : findEmployeeByUsername st u = some employee)
    (hq0 : q ≤ 0)
    (hstock : q ≤ product.stock) :
    (add_sale st u pid q now sid).snd = AddSaleResult.recorded ∧
    (add_sale st u pid q now sid).fst.sales = st.sales ++
      [{ id := sid, product_id := pid, employee_id := employee.id,
         quantity := q, total_price := product.price * (q : Rat),
         sale_date := now }] ∧
    findProduct (add_sale st u pid q now sid).fst pid =
      some { product with stock := product.stock - q } ∧
    product.stock - q = product.stock + (q.natAbs : Int) ∧
    product.stock ≤ product.stock - q := by
  rw [add_sale_success_eq st u pid q now sid product employee hp he
    (not_lt.mpr hstock)]
  refine ⟨rfl, rfl, ?_, by omega, by omega⟩
  unfold findProduct at hp ⊢
  have hfx : (fun p2 => p2.id == pid)
      ({ product with stock := product.stock - q } : Product) = true :=
    @List.find?_some _ (fun p2 => p2.id == pid) product st.products hp
  exact find?_updateFirst (fun p2 => p2.id == pid)
    (fun p2 => { p2 with stock := p2.stock - q }) st.products product hp hfx

theorem add_sale_nonpositive_quantity_witness :
    (add_sale sampleStore "alice" 1 (-4) 7 99).snd = AddSaleResult.recorded ∧
    (add_sale sampleStore "alice" 1 (-4) 7 99).fst.sales =
      sampleStore.sales ++
      [{ id := 99, product_id := 1, employee_id := sampleEmployee.id,
         quantity := -4, total_price := sampleProduct.price * ((-4 : Int) : Rat),
         sale_date := 7 }] ∧
    findProduct (add_sale sampleStore "alice" 1 (-4) 7 99).fst 1 =
      some { sampleProduct with stock := sampleProduct.stock - (-4) } ∧
    sampleProduct.stock - (-4) = sampleProduct.stock + ((-4 : Int).natAbs : Int) ∧
    sampleProduct.stock ≤ sampleProduct.stock - (-4) :=
  add_sale_nonpositive_quantity sampleStore "alice" 1 (-4) 7 99 sampleProduct
    sampleEmployee rfl rfl (by decide) (by decide)

/-- Claim C4: the password policy check fails exactly when the password is
weak — shorter than 8 characters or missing an ASCII lowercase letter,
uppercase letter or digit — the reported message is the one for the first
missing criterion in the order length, lowercase, uppercase, digit, and a
register request with a weak password is rejected with exactly that
message and an unchanged store (no employee created). -/
theorem validate_password_policy (p : String) :
    ((validate_password p).fst = true ↔
      (8 ≤ p.length ∧ (∃ c ∈ p.data, 'a' ≤ c ∧ c ≤ 'z') ∧
       (∃ c ∈ p.data, 'A' ≤ c ∧ c ≤ 'Z') ∧ (∃ c ∈ p.data, '0' ≤ c ∧ c ≤ '9'))) ∧
    (p.length < 8 →
      (validate_password p).snd = "รหัสผ่านต้องมีอย่างน้อย 8 ตัวอักษร") ∧
    (8 ≤ p.length → (¬ ∃ c ∈ p.data, 'a' ≤ c ∧ c ≤ 'z') →
      (validate_password p).snd = "รหัสผ่านต้องมีตัวพิมพ์เล็ก") ∧
    (8 ≤ p.length → (∃ c ∈ p.data, 'a' ≤ c ∧ c ≤ 'z') →
      (¬ ∃ c ∈ p.data, 'A' ≤ c ∧ c ≤ 'Z') →
      (validate_password p).snd = "รหัสผ่านต้องมีตัวพิมพ์ใหญ่") ∧
    (8 ≤ p.length → (∃ c ∈ p.data, 'a' ≤ c ∧ c ≤ 'z') →
      (∃ c ∈ p.data, 'A' ≤ c ∧ c ≤ 'Z') →
      (¬ ∃ c ∈ p.data, '0' ≤ c ∧ c ≤ '9') →
      (validate_password p).snd = "รหัสผ่านต้องมีตัวเลข") ∧
    (∀ (st : Store) (username cp fn pos2 em ph : String)
       (gh : String → String) (now nid : Nat),
      (validate_password p).fst = false →
      register st username p cp fn pos2 em ph gh now nid =
        (st, RegisterResult.rejected (validate_password p).snd)) := by
  have hl : (hasLower p = true) ↔ (∃ c ∈ p.data, 'a' ≤ c ∧ c ≤ 'z') := by
    simp [hasLower]
  have hu : (hasUpper p = true) ↔ (∃ c ∈ p.data, 'A' ≤ c ∧ c ≤ 'Z') := by
    simp [hasUpper]
  have hd : (hasDigit p = true) ↔ (∃ c ∈ p.data, '0' ≤ c ∧ c ≤ '9') := by
    simp [hasDigit]
  rw [← hl, ← hu, ← hd]
  refine ⟨?_, ?_, ?_, ?_, ?_, ?_⟩
  · by_cases h8 : p.length < 8 <;> by_cases h1 : hasLower p = true <;>
      by_cases h2 : hasUpper p = true <;> by_cases h3 : hasDigit p = true <;>
      simp [validate_password, h8, h1, h2, h3]
    all_goals omega
  · intro h8
    simp [validate_password, h8]
  · intro h8 hnl
    have h1 : hasLower p = false := by
      revert hnl
      cases hasLower p <;> simp
    simp [validate_password, Nat.not_lt.mpr h8, h1]
  · intro h8 h1 hnu
    have h2 : hasUpper p = false := by
      revert hnu
      cases hasUpper p <;> simp
    simp [validate_password, Nat.not_lt.mpr h8, h1, h2]
  · intro h8 h1 h2 hnd
    have h3 : hasDigit p = false := by
      revert hnd
      cases hasDigit p <;> simp
    simp [validate_password, Nat.not_lt.mpr h8, h1, h2, h3]
  · intro st username cp fn pos2 em ph gh now nid hfalse
    simp [register, hfalse]

theorem validate_password_policy_witness :
    (validate_password "abc").snd = "รหัสผ่านต้องมีอย่างน้อย 8 ตัวอักษร" ∧
    register sampleStore "bob" "abc" "abc" "Bob B" "clerk" "bob@example.com"
        "0000000000" id 0 2 =
      (sampleStore, RegisterResult.rejected (validate_password "abc").snd) :=
  ⟨(validate_password_policy "abc").2.1 (by decide),
   (validate_password_policy "abc").2.2.2.2.2 sampleStore "bob" "abc" "Bob B"
     "clerk" "bob@example.com" "0000000000" id 0 2 (by decide)⟩

/-- Claim C5: a register request whose username or email is already taken
by a stored employee (password passing the policy and matching its
confirmation) is rejected with the duplicate-username or duplicate-email
message and leaves the store unchanged, so registration preserves
username/email uniqueness. -/
theorem register_duplicate_rejected (st : Store)
    (username p cp fn pos2 em ph : String) (gh : String → String)
    (now nid : Nat)
    (hvalid : (validate_password p).fst = true)
    (hmatch : p = cp)
    (hdup : (∃ e ∈ st.employees, e.username = username) ∨
            (∃ e ∈ st.employees, e.email = em)) :
    (register st username p cp fn pos2 em ph gh now nid).fst = st ∧
    ((register st username p cp fn pos2 em ph gh now nid).snd =
        RegisterResult.rejected "ชื่อผู้ใช้นี้มีคนใช้แล้ว!" ∨
     (register st username p cp fn pos2 em ph gh now nid).snd =
        RegisterResult.rejected "อีเมลนี้มีคนใช้แล้ว!") := by
  subst hmatch
  unfold register
  rw [if_neg (by simp [hvalid])]
  rw [if_neg (by simp)]
  by_cases hu : (findEmployeeByUsername st username).isSome
  · rw [if_pos hu]
    exact ⟨rfl, Or.inl rfl⟩
  · rw [if_neg hu]
    have hem : (findEmployeeByEmail st em).isSome := by
      rcases hdup with h | h
      · exfalso
        apply hu
        unfold findEmployeeByUsername
        rw [List.find?_isSome]
        rcases h with ⟨e, he1, he2⟩
        exact ⟨e, he1, by simp [he2]⟩
      · unfold findEmployeeByEmail
        rw [List.find?_isSome]
        rcases h with ⟨e, he1, he2⟩
        exact ⟨e, he1, by simp [he2]⟩
    rw [if_pos hem]
    exact ⟨rfl, Or.inr rfl⟩

theorem register_duplicate_rejected_witness :
    (register sampleStore "alice" "Secret123" "Secret123" "Bob B" "clerk"
        "bob@example.com" "0000000000" id 0 2).fst = sampleStore ∧
    ((register sampleStore "alice" "Secret123" "Secret123" "Bob B" "clerk"
        "bob@example.com" "0000000000" id 0 2).snd =
        RegisterResult.rejected "ชื่อผู้ใช้นี้มีคนใช้แล้ว!" ∨
     (register sampleStore "alice" "Secret123" "Secret123" "Bob B" "clerk"
        "bob@example.com" "0000000000" id 0 2).snd =
        RegisterResult.rejected "อีเมลนี้มีคนใช้แล้ว!") :=
  register_duplicate_rejected sampleStore "alice" "Secret123" "Secret123"
    "Bob B" "clerk" "bob@example.com" "0000000000" id 0 2 (by decide) rfl
    (Or.inl (by decide))

/-- Claim C6: the two ways a login can fail — no employee with the
submitted username, and an existing employee whose stored hash does not
verify against the submitted password — are indistinguishable to the
user: both runs end on the login page with the same single generic
invalid-credentials flash, the store untouched and the session unchanged,
so the two outputs are equal. -/
theorem login_failures_indistinguishable (st : Store)
    (checkHash : String → String → Bool) (sess : Option String)
    (u1 p1 u2 p2 : String) (now1 now2 : Nat) (e : Employee)
    (h1 : findEmployeeByUsername st u1 = none)
    (h2 : findEmployeeByUsername st u2 = some e)
    (h3 : checkHash e.password_hash p2 = false) :
    login st checkHash sess u1 p1 now1 =
      LoginResult.mk st sess "ชื่อผู้ใช้หรือรหัสผ่านไม่ถูกต้อง!"
        LoginView.loginPage ∧
    login st checkHash sess u2 p2 now2 =
      LoginResult.mk st sess "ชื่อผู้ใช้หรือรหัสผ่านไม่ถูกต้อง!"
        LoginView.loginPage ∧
    login st checkHash sess u1 p1 now1 = login st checkHash sess u2 p2 now2 := by
  have e1 : login st checkHash sess u1 p1 now1 =
      LoginResult.mk st sess "ชื่อผู้ใช้หรือรหัสผ่านไม่ถูกต้อง!"
        LoginView.loginPage := by
    unfold login
    rw [h1]
  have e2 : login st checkHash sess u2 p2 now2 =
      LoginResult.mk st sess "ชื่อผู้ใช้หรือรหัสผ่านไม่ถูกต้อง!"
        LoginView.loginPage := by
    unfold login
    rw [h2]
    simp [h3]
  exact ⟨e1, e2, e1.trans e2.symm⟩

theorem login_failures_indistinguishable_witness :
    login sampleStore (fun h p2 => h == p2) none "bob" "Whatever1" 5 =
      LoginResult.mk sampleStore none "ชื่อผู้ใช้หรือรหัสผ่านไม่ถูกต้อง!"
        LoginView.loginPage ∧
    login sampleStore (fun h p2 => h == p2) none "alice" "Wrong1234" 6 =
      LoginResult.mk sampleStore none "ชื่อผู้ใช้หรือรหัสผ่านไม่ถูกต้อง!"
        LoginView.loginPage ∧
    login sampleStore (fun h p2 => h == p2) none "bob" "Whatever1" 5 =
      login sampleStore (fun h p2 => h == p2) none "alice" "Wrong1234" 6 :=
  login_failures_indistinguishable sampleStore (fun h p2 => h == p2) none
    "bob" "Whatever1" "alice" "Wrong1234" 5 6 sampleEmployee (by decide)
    (by decide) (by decide)

/-- Claim C7: a login whose username matches a stored employee and whose
password verifies against that employee's hash establishes a session
bound to that username, redirects home, and updates exactly that
employee's last_login to the current time: products, sales and every
employee with a different username are unchanged, the employees table
keeps its size, and the matched employee differs only in last_login. -/
theorem login_success_updates_last_login (st : Store)
    (checkHash : String → String → Bool) (sess : Option String)
    (u p : String) (now : Nat) (e : Employee)
    (he : findEmployeeByUsername st u = some e)
    (hck : checkHash e.password_hash p = true) :
    (login st checkHash sess u p now).sess = some u ∧
    (login st checkHash sess u p now).view = LoginView.redirectHome ∧
    (login st checkHash sess u p now).store.products = st.products ∧
    (login st checkHash sess u p now).store.sales = st.sales ∧
    findEmployeeByUsername (login st checkHash sess u p now).store u =
      some { e with last_login := some now } ∧
    (∀ e2 ∈ st.employees, e2.username ≠ u →
      e2 ∈ (login st checkHash sess u p now).store.employees) ∧
    (login st checkHash sess u p now).store.employees.length =
      st.employees.length := by
  have hlogin : login st checkHash sess u p now = LoginResult.mk
      { st with employees := (updateFirst (fun e2 => e2.username == u)
          (fun e2 => { e2 with last_login := some now }) st.employees) }
      (some u) "เข้าสู่ระบบสำเร็จ!" LoginView.redirectHome := by
    unfold login
    rw [he]
    simp [hck]
  rw [hlogin]
  refine ⟨rfl, rfl, rfl, rfl, ?_, ?_, ?_⟩
  · unfold findEmployeeByUsername at he ⊢
    have hfx : (fun e2 => e2.username == u)
        ({ e with last_login := some now } : Employee) = true :=
      @List.find?_some _ (fun e2 => e2.username == u) e st.employees he
    exact find?_updateFirst (fun e2 => e2.username == u)
      (fun e2 => { e2 with last_login := some now }) st.employees e he hfx
  · intro e2 h2 hne
    exact mem_updateFirst_of_neg _ _ st.employees e2 h2 (by simp [hne])
  · exact updateFirst_length _ _ _

theorem login_success_updates_last_login_witness :
    (login sampleStore (fun h p2 => h == p2) none "alice" "Secret123" 5).sess =
      some "alice" ∧
    (login sampleStore (fun h p2 => h == p2) none "alice" "Secret123" 5).view =
      LoginView.redirectHome ∧
    (login sampleStore (fun h p2 => h == p2) none "alice" "Secret123"
      5).store.products = sampleStore.products ∧
    (login sampleStore (fun h p2 => h == p2) none "alice" "Secret123"
      5).store.sales = sampleStore.sales ∧
    findEmployeeByUsername
      (login sampleStore (fun h p2 => h == p2) none "alice" "Secret123"
        5).store "alice" =
      some { sampleEmployee with last_login := some 5 } ∧
    (∀ e2 ∈ sampleStore.employees, e2.username ≠ "alice" →
      e2 ∈ (login sampleStore (fun h p2 => h == p2) none "alice" "Secret123"
        5).store.employees) ∧
    (login sampleStore (fun h p2 => h == p2) none "alice" "Secret123"
      5).store.employees.length = sampleStore.employees.length :=
  login_success_updates_last_login sampleStore (fun h p2 => h == p2) none
    "alice" "Secret123" 5 sampleEmployee (by decide) (by decide)

/-- Claim C9: Sale rows are immutable once created: every operation other
than the add_sale POST — every protected route that is not the sale-add
route (dashboard, product list/add/edit/delete, sales listing), register,
login and logout — returns a store whose sales table is exactly the old
one, and no handler to edit or delete a Sale exists in the embedding. -/
theorem sale_rows_immutable (st : Store) (r : ProtectedRoute)
    (sess : Option String) (now freshId : Nat)
    (username p cp fn pos2 em ph : String) (gh : String → String)
    (ck : String → String → Bool)
    (hr : isSaleAddRoute r = false) :
    (handleProtected r sess st now freshId).fst.sales = st.sales ∧
    (register st username p cp fn pos2 em ph gh now freshId).fst.sales =
      st.sales ∧
    (login st ck sess username p now).store.sales = st.sales ∧
    (logout st sess).fst.sales = st.sales := by
  refine ⟨?_, ?_, ?_, rfl⟩
  · cases sess with
    | none => rfl
    | some u =>
      cases r with
      | home => rfl
      | productsPage => rfl
      | productAdd form => cases form <;> rfl
      | productEdit id form =>
        cases form with
        | none =>
          simp only [handleProtected, login_required, handlerFor]
          cases findProduct st id <;> rfl
        | some f =>
          simp only [handleProtected, login_required, handlerFor,
            edit_product]
          cases hfp : findProduct st id <;> simp [hfp]
      | productDelete id =>
        simp only [handleProtected, login_required, handlerFor,
          delete_product]
        cases hfp : findProduct st id with
        | none => simp [hfp]
        | some prod =>
          by_cases hs : st.sales.any (fun s => s.product_id == id) = true <;>
            simp [hfp, hs]
      | salesPage => rfl
      | saleAdd form => simp [isSaleAddRoute] at hr
  · simp only [register]
    repeat first
    | rfl
    | split
  · unfold login
    cases findEmployeeByUsername st username with
    | none => rfl
    | some e => by_cases h : ck e.password_hash p = true <;> simp [h]

theorem sale_rows_immutable_witness :
    (handleProtected ProtectedRoute.home none sampleStore 0 0).fst.sales =
      sampleStore.sales ∧
    (register sampleStore "bob" "Secret123" "Secret123" "Bob B" "clerk"
        "bob@example.com" "0000000000" id 0 0).fst.sales =
      sampleStore.sales ∧
    (login sampleStore (fun h p2 => h == p2) none "bob" "Secret123"
      0).store.sales = sampleStore.sales ∧
    (logout sampleStore none).fst.sales = sampleStore.sales :=
  sale_rows_immutable sampleStore ProtectedRoute.home none 0 0 "bob"
    "Secret123" "Secret123" "Bob B" "clerk" "bob@example.com" "0000000000"
    id (fun h p2 => h == p2) (by decide)

end MyItStore
